import Mathlib

/-!
# Verification of the custom browser-action controller

Shallow embedding of `src/controller/custom_controller.py`: the registry of
named browser actions (`CustomController._register_custom_actions`), the
uniform `ActionResult` protocol, and the bounded-retry wrapper.

Driver operations (page navigation, DOM queries, screenshots, cookies,
clipboard, HTTP) are external collaborators; each invocation supplies their
outcomes as `Except Exc _` values in an `Invocation` record, one field per driver
call site.  Python standard-library functions used by the handlers
(`json.loads`, `json.dumps`, `str`/`repr`, `base64.b64encode`) are modelled
as executable Lean functions, faithful on the inputs the theorems quantify
over (printable ASCII, integer JSON numbers).
-/

/-- A raised Python exception, identified by its `str(e)` text. -/
structure Exc where
  msg : String
deriving DecidableEq, Repr

/-- The result record every handler produces: `browser_use.agent.views.ActionResult`
restricted to the two fields this controller populates
(`extracted_content` / `error`), the wire shape of spec section 6. -/
structure ActionResult where
  extracted_content : Option String
  error : Option String
deriving DecidableEq, Repr

/-- `ActionResult(extracted_content=c)` — the success variant. -/
def ActionResult.success (c : String) : ActionResult := ⟨some c, none⟩

/-- `ActionResult(error=m)` — the failure variant. -/
def ActionResult.failure (m : String) : ActionResult := ⟨none, some m⟩

/-- Exactly one of the two `ActionResult` variants is populated. -/
def exactlyOne (r : ActionResult) : Prop :=
  (r.extracted_content.isSome = true ∧ r.error = none) ∨
  (r.error.isSome = true ∧ r.extracted_content = none)

instance (r : ActionResult) : Decidable (exactlyOne r) := by
  unfold exactlyOne; infer_instance

/-- Sequencing of one fallible Python statement: a raised exception
short-circuits the rest of the handler body. -/
def step {α : Type} (x : Except Exc α) (k : α → Except Exc ActionResult) :
    Except Exc ActionResult :=
  match x with
  | .error e => .error e
  | .ok a => k a

/-- A handler-local `try: ... except Exception as e: return ActionResult(error=str(e))`
block: a raised exception becomes a returned failure result. -/
def pyTry (b : Except Exc ActionResult) : Except Exc ActionResult :=
  match b with
  | .ok r => .ok r
  | .error e => .ok (ActionResult.failure e.msg)

/-- Modelled from the spec: the registry `execute` boundary (spec section 4.1).
The registry implementation lives in the external `browser_use` package, not
under `src/`; per the spec, any exception raised by the handler (including
ones from the underlying browser driver) is caught here and converted to
`Failure{message: str(exception)}`, so no exception crosses the action
boundary. -/
def execute_action (b : Except Exc ActionResult) : ActionResult :=
  match b with
  | .ok r => r
  | .error e => ActionResult.failure e.msg

/-- The single-quote character, written by code point to keep source free of
quote literals. -/
def pyQuote : String := String.singleton (Char.ofNat 39)

/-- Python values as passed across the driver boundary and through
`json.loads` / `json.dumps` / `str`: `None`, `bool`, `int`, `str`, `list`,
`dict` with string keys. -/
inductive PyVal where
  | vNone : PyVal
  | vBool : Bool → PyVal
  | vInt : Int → PyVal
  | vStr : String → PyVal
  | vList : List PyVal → PyVal
  | vDict : List (String × PyVal) → PyVal
deriving Repr

/-- Comma-space separated concatenation, the default element separator of both
Python `repr` of containers and `json.dumps`. -/
def commaSep : List String → String
  | [] => ""
  | [x] => x
  | x :: y :: ys => x ++ ", " ++ commaSep (y :: ys)

mutual
/-- Modelled from the Python standard library: `repr(v)` for the `PyVal`
fragment, as used by `str()` on lists and dicts.  String contents are
rendered between single quotes without further escaping, which matches
CPython for strings free of quotes, backslashes and control characters — the
domain the theorems quantify over. -/
def pyRepr : PyVal → String
  | .vNone => "None"
  | .vBool b => if b then "True" else "False"
  | .vInt n => toString n
  | .vStr s => pyQuote ++ s ++ pyQuote
  | .vList xs => "[" ++ commaSep (pyReprList xs) ++ "]"
  | .vDict kvs => "\x7b" ++ commaSep (pyReprDict kvs) ++ "\x7d"

def pyReprList : List PyVal → List String
  | [] => []
  | v :: vs => pyRepr v :: pyReprList vs

def pyReprDict : List (String × PyVal) → List String
  | [] => []
  | kv :: kvs => (pyQuote ++ kv.1 ++ pyQuote ++ ": " ++ pyRepr kv.2) :: pyReprDict kvs
end

/-- Modelled from the Python standard library: `str(v)`.  Identical to
`repr(v)` except on strings, which are returned verbatim. -/
def pyStr : PyVal → String
  | .vStr s => s
  | v => pyRepr v

/-- JSON escaping of one character: `json.dumps` escapes the double quote and
the backslash (on printable-ASCII input, the domain the theorems quantify
over, these are the only characters it escapes). -/
def escChar (c : Char) : List Char :=
  if c = '"' ∨ c = '\\' then ['\\', c] else [c]

/-- JSON escaping of a character sequence. -/
def escapeL : List Char → List Char
  | [] => []
  | c :: cs => escChar c ++ escapeL cs

/-- A JSON string literal: opening quote, escaped body, closing quote. -/
def jsonStrEnc (s : String) : List Char :=
  '"' :: (escapeL s.data ++ ['"'])

mutual
/-- Modelled from the Python standard library: `json.dumps(v)` with default
separators (`", "` and `": "`) for the `PyVal` fragment. -/
def pyJsonDumps : PyVal → String
  | .vNone => "null"
  | .vBool b => if b then "true" else "false"
  | .vInt n => toString n
  | .vStr s => String.mk (jsonStrEnc s)
  | .vList xs => "[" ++ commaSep (pyJsonDumpsList xs) ++ "]"
  | .vDict kvs => "\x7b" ++ commaSep (pyJsonDumpsDict kvs) ++ "\x7d"

def pyJsonDumpsList : List PyVal → List String
  | [] => []
  | v :: vs => pyJsonDumps v :: pyJsonDumpsList vs

def pyJsonDumpsDict : List (String × PyVal) → List String
  | [] => []
  | kv :: kvs =>
    (String.mk (jsonStrEnc kv.1) ++ ": " ++ pyJsonDumps kv.2) :: pyJsonDumpsDict kvs
end

/-- Whitespace characters JSON permits between tokens. -/
def isWsChar (c : Char) : Bool :=
  c == ' ' || c == Char.ofNat 10 || c == Char.ofNat 9 || c == Char.ofNat 13

/-- Drop leading JSON whitespace. -/
def skipWs : List Char → List Char
  | [] => []
  | c :: rest => if isWsChar c then skipWs rest else c :: rest

/-- Resolve a JSON backslash escape to the character it denotes. -/
def unescChar (c : Char) : Char :=
  if c = 'n' then Char.ofNat 10
  else if c = 't' then Char.ofNat 9
  else if c = 'r' then Char.ofNat 13
  else c

/-- Parse the body of a JSON string literal, after its opening quote: the
decoded characters and the unconsumed tail after the closing quote.
(`\uXXXX` escapes are outside the modelled fragment.) -/
def parseJsonStringBody : List Char → Option (List Char × List Char)
  | [] => none
  | c :: rest =>
    if c = '"' then some ([], rest)
    else if c = '\\' then
      match rest with
      | [] => none
      | c2 :: rest2 =>
        match parseJsonStringBody rest2 with
        | some (s, r) => some (unescChar c2 :: s, r)
        | none => none
    else
      match parseJsonStringBody rest with
      | some (s, r) => some (c :: s, r)
      | none => none

/-- The longest leading run of decimal digits, with the unconsumed tail. -/
def takeDigits : List Char → List Char × List Char
  | [] => ([], [])
  | c :: rest =>
    if c.isDigit then
      let p := takeDigits rest
      (c :: p.1, p.2)
    else ([], c :: rest)

/-- Numeric value of a digit run. -/
def digitsToNat : List Char → Nat :=
  List.foldl (fun acc c => acc * 10 + (c.toNat - 48)) 0

mutual
/-- Fuel-bounded recursive-descent parser for one JSON value (strings,
integers, booleans, null, arrays, objects; floats and `\uXXXX` escapes are
outside the modelled fragment).  Returns the value and the unconsumed tail.
The fuel only bounds nesting of the descent; `jsonLoads` supplies more fuel
than any input can consume. -/
def jsonParseVal : Nat → List Char → Option (PyVal × List Char)
  | 0, _ => none
  | fuel + 1, cs =>
    match skipWs cs with
    | [] => none
    | c :: rest =>
      if c = '"' then
        match parseJsonStringBody rest with
        | some (s, r) => some (.vStr (String.mk s), r)
        | none => none
      else if c = '[' then
        match skipWs rest with
        | ']' :: r => some (.vList [], r)
        | _ =>
          match jsonParseItems fuel rest with
          | some (vs, r) => some (.vList vs, r)
          | none => none
      else if c = Char.ofNat 123 then
        match skipWs rest with
        | c2 :: r =>
          if c2 = Char.ofNat 125 then some (.vDict [], r)
          else
            match jsonParseMembers fuel rest with
            | some (kvs, r2) => some (.vDict kvs, r2)
            | none => none
        | [] => none
      else if c = 't' then
        match rest with
        | 'r' :: 'u' :: 'e' :: r => some (.vBool true, r)
        | _ => none
      else if c = 'f' then
        match rest with
        | 'a' :: 'l' :: 's' :: 'e' :: r => some (.vBool false, r)
        | _ => none
      else if c = 'n' then
        match rest with
        | 'u' :: 'l' :: 'l' :: r => some (.vNone, r)
        | _ => none
      else if c = '-' then
        match takeDigits rest with
        | ([], _) => none
        | (ds, r) => some (.vInt (-(digitsToNat ds : Int)), r)
      else if c.isDigit then
        match takeDigits (c :: rest) with
        | (ds, r) => some (.vInt (digitsToNat ds), r)
      else none

/-- One-or-more comma-separated JSON array elements, consuming the closing
bracket. -/
def jsonParseItems : Nat → List Char → Option (List PyVal × List Char)
  | 0, _ => none
  | fuel + 1, cs =>
    match jsonParseVal fuel cs with
    | none => none
    | some (v, r) =>
      match skipWs r with
      | ',' :: r2 =>
        match jsonParseItems fuel r2 with
        | some (vs, r3) => some (v :: vs, r3)
        | none => none
      | ']' :: r2 => some ([v], r2)
      | _ => none

/-- One-or-more comma-separated JSON object members, consuming the closing
brace. -/
def jsonParseMembers : Nat → List Char → Option (List (String × PyVal) × List Char)
  | 0, _ => none
  | fuel + 1, cs =>
    match skipWs cs with
    | [] => none
    | c :: rest =>
      if c = '"' then
        match parseJsonStringBody rest with
        | none => none
        | some (k, r) =>
          match skipWs r with
          | ':' :: r2 =>
            match jsonParseVal fuel r2 with
            | none => none
            | some (v, r3) =>
              match skipWs r3 with
              | ',' :: r4 =>
                match jsonParseMembers fuel r4 with
                | some (kvs, r5) => some ((String.mk k, v) :: kvs, r5)
                | none => none
              | c5 :: r4 =>
                if c5 = Char.ofNat 125 then some ([(String.mk k, v)], r4) else none
              | [] => none
          | _ => none
      else none
end

/-- Modelled from the Python standard library: `json.loads(s)` on the
modelled JSON fragment.  `none` models a raised `json.JSONDecodeError`:
exactly one JSON value, surrounded only by whitespace. -/
def jsonLoads (s : String) : Option PyVal :=
  match jsonParseVal (s.data.length + 1) s.data with
  | some (v, r) =>
    match skipWs r with
    | [] => some v
    | _ => none
  | none => none

/-- `str(e)` of the `json.JSONDecodeError` raised by `json.loads` on
malformed text (modelled message). -/
def jsonDecodeErrMsg : String := "Expecting value: line 1 column 1 (char 0)"

/-- `str(e)` of the `TypeError` raised by `json.loads(None)` (modelled
message). -/
def typeErrMsg : String := "the JSON object must be str, bytes or bytearray, not NoneType"

/-- `str(e)` of the `UnboundLocalError` raised when `result` is read without
having been assigned (modelled message). -/
def unboundLocalMsg : String :=
  "local variable " ++ pyQuote ++ "result" ++ pyQuote ++ " referenced before assignment"

/-- `str(e)` of the `AttributeError` raised by `.items()` on a non-dict
(modelled message). -/
def attrItemsMsg : String :=
  "object has no attribute " ++ pyQuote ++ "items" ++ pyQuote

/-- `json.loads` applied to a string argument, as a fallible Python call. -/
def pyJsonLoadsStr (s : String) : Except Exc PyVal :=
  match jsonLoads s with
  | some v => .ok v
  | none => .error ⟨jsonDecodeErrMsg⟩

/-- `json.loads` applied to `Optional[str]`: `json.loads(None)` raises a
`TypeError`. -/
def pyJsonLoadsOpt : Option String → Except Exc PyVal
  | none => .error ⟨typeErrMsg⟩
  | some s => pyJsonLoadsStr s

/-- `v.items()` as used by `fill_and_submit_form`: the key/value pairs of a
dict, an `AttributeError` on any other value. -/
def itemsOf : PyVal → Except Exc (List (String × PyVal))
  | .vDict kvs => .ok kvs
  | _ => .error ⟨attrItemsMsg⟩

/-- Fuel-bounded parser for the elements of a JSON array of strings, after
the opening bracket: the decoded strings and the unconsumed tail after the
closing bracket.  The fuel only bounds the element count; `decodeStrArray`
supplies more fuel than any input can consume. -/
def parseStrItems : Nat → List Char → Option (List String × List Char)
  | 0, _ => none
  | fuel + 1, cs =>
    match skipWs cs with
    | c :: body =>
      if c = '"' then
        match parseJsonStringBody body with
        | some (s, rest) =>
          match skipWs rest with
          | ',' :: more =>
            match parseStrItems fuel more with
            | some (xs, r) => some (String.mk s :: xs, r)
            | none => none
          | ']' :: r => some ([String.mk s], r)
          | _ => none
        | none => none
      else none
    | [] => none

/-- Spec-side decoder for the round-trip property: parse a complete JSON text
as an array of strings (the payload shape `extract_all_links` emits),
yielding the element strings in order. -/
def decodeStrArray (s : String) : Option (List String) :=
  match skipWs s.data with
  | '[' :: rest =>
    match skipWs rest with
    | ']' :: r => if skipWs r = [] then some [] else none
    | _ =>
      match parseStrItems (s.data.length + 1) rest with
      | some (xs, r) => if skipWs r = [] then some xs else none
      | none => none
  | _ => none

/-- The base64 alphabet, in index order. -/
def b64alphabet : List Char :=
  "ABCDEFGHIJKLMNOPQRSTUVWXYZabcdefghijklmnopqrstuvwxyz0123456789+/".data

/-- The base64 digit for a sextet. -/
def b64char (n : Nat) : Char := b64alphabet.getD n 'A'

/-- The sextet for a base64 digit. -/
def b64val (c : Char) : Nat := b64alphabet.indexOf c

/-- Modelled from the Python standard library: `base64.b64encode`, producing
the padded base64 digit sequence of a byte sequence (bytes as `Nat < 256`). -/
def b64encodeL : List Nat → List Char
  | [] => []
  | [a] => [b64char (a / 4), b64char (a % 4 * 16), '=', '=']
  | [a, b] => [b64char (a / 4), b64char (a % 4 * 16 + b / 16), b64char (b % 16 * 4), '=']
  | a :: b :: c :: rest =>
    b64char (a / 4) :: b64char (a % 4 * 16 + b / 16) ::
      b64char (b % 16 * 4 + c / 64) :: b64char (c % 64) :: b64encodeL rest

/-- Modelled from the Python standard library: `base64.b64decode` on padded
base64 text, recovering the byte sequence. -/
def b64decodeL : List Char → List Nat
  | c0 :: c1 :: c2 :: c3 :: rest =>
    if c2 = '=' then [b64val c0 * 4 + b64val c1 / 16]
    else if c3 = '=' then
      [b64val c0 * 4 + b64val c1 / 16, b64val c1 % 16 * 16 + b64val c2 / 4]
    else
      (b64val c0 * 4 + b64val c1 / 16) :: (b64val c1 % 16 * 16 + b64val c2 / 4) ::
        (b64val c2 % 4 * 64 + b64val c3) :: b64decodeL rest
  | _ => []

/-- `base64.b64encode(bs).decode("utf-8")`: the base64 text as a string. -/
def b64encodeStr (bs : List Nat) : String := String.mk (b64encodeL bs)

/-- The data-URL prefix both screenshot actions prepend; 22 characters. -/
def dataUrlTag : String := "data:image/png;base64,"

/-- One invocation of a registered action: the caller-supplied arguments
together with the outcome the external collaborators (browser driver,
clipboard, content extractor, HTTP client) would deliver for each call site
the handler can reach.  `Except.error e` models that call raising `e`.
For `page.evaluate` there is one field per script the controller sends,
typed by that script's result shape. -/
structure Invocation where
  text : String
  script : String
  selector : String
  url : String
  timeout : Nat
  x : Int
  y : Int
  data_arg : Option String
  form_selector : String
  form_data : String
  popup_action : String
  iframe_selector : String
  download_path : Option String
  cookies_arg : String
  action_name : String
  max_retries : Nat
  method : String
  page_url : String
  get_current_page : Except Exc Unit
  clip_copy : Except Exc Unit
  clip_paste : Except Exc String
  keyboard_type : Except Exc Unit
  page_screenshot : Except Exc (List Nat)
  page_screenshot_full : Except Exc (List Nat)
  page_content : Except Exc String
  extract_main : Except Exc String
  wait_selector : Except Exc Unit
  eval_script : Except Exc PyVal
  eval_scroll_into : Except Exc Unit
  eval_scroll_bottom : Except Exc Unit
  eval_scroll_top : Except Exc Unit
  eval_links : Except Exc (List String)
  eval_images : Except Exc (List String)
  eval_table : Except Exc (List (List String))
  page_close : Except Exc Unit
  new_page : Except Exc Unit
  page_goto : Except Exc Unit
  ctx_cookies : Except Exc PyVal
  ctx_add_cookies : Except Exc Unit
  ctx_clear_cache : Except Exc Unit
  dl_expect : Except Exc Unit
  dl_value : Except Exc Unit
  dl_save : Except Exc Unit
  mouse_move : Except Exc Unit
  page_click : Except Exc Unit
  page_fill : Except Exc Unit
  page_reload : Except Exc Unit
  page_hover : Except Exc Unit
  page_on_dialog : Except Exc Unit
  page_on_console : Except Exc Unit
  page_on_request : Except Exc Unit
  query_selector : Except Exc Bool
  content_frame : Except Exc Unit
  http_get : Except Exc String
  http_post : Except Exc String
  wait_nav : Except Exc Unit
  attempts : Nat → Except Exc ActionResult

/-- `copy_to_clipboard(text)`: `pyperclip.copy(text)`, then success with the
text.  No handler-local try. -/
def copy_to_clipboard (inv : Invocation) : Except Exc ActionResult :=
  step inv.clip_copy fun _ =>
    .ok (ActionResult.success inv.text)

/-- `paste_from_clipboard(browser)`: `pyperclip.paste()`, get the page, type
the text, success with the text.  No handler-local try. -/
def paste_from_clipboard (inv : Invocation) : Except Exc ActionResult :=
  step inv.clip_paste fun text =>
    step inv.get_current_page fun _ =>
      step inv.keyboard_type fun _ =>
        .ok (ActionResult.success text)

/-- `take_screenshot(browser)`: viewport screenshot bytes, base64-encoded
behind the data-URL prefix.  No handler-local try. -/
def take_screenshot (inv : Invocation) : Except Exc ActionResult :=
  step inv.get_current_page fun _ =>
    step inv.page_screenshot fun screenshot =>
      .ok (ActionResult.success (dataUrlTag ++ b64encodeStr screenshot))

/-- `extract_main_content(browser)`: page HTML through
`MainContentExtractor.extract`.  No handler-local try. -/
def extract_main_content (inv : Invocation) : Except Exc ActionResult :=
  step inv.get_current_page fun _ =>
    step inv.page_content fun _html =>
      step inv.extract_main fun main_content =>
        .ok (ActionResult.success main_content)

/-- `wait_for_element(browser, selector, timeout)`: `page.wait_for_selector`
inside try/except. -/
def wait_for_element (inv : Invocation) : Except Exc ActionResult :=
  step inv.get_current_page fun _ =>
    pyTry (step inv.wait_selector fun _ =>
      .ok (ActionResult.success
        ("Element " ++ pyQuote ++ inv.selector ++ pyQuote ++ " found")))

/-- `execute_js(browser, script)`: `page.evaluate(script)`, success with
`str(result)`.  No handler-local try. -/
def execute_js (inv : Invocation) : Except Exc ActionResult :=
  step inv.get_current_page fun _ =>
    step inv.eval_script fun result =>
      .ok (ActionResult.success (pyStr result))

/-- `scroll_to_element(browser, selector)`: a `scrollIntoView` evaluation
inside try/except. -/
def scroll_to_element (inv : Invocation) : Except Exc ActionResult :=
  step inv.get_current_page fun _ =>
    pyTry (step inv.eval_scroll_into fun _ =>
      .ok (ActionResult.success
        ("Scrolled to element " ++ pyQuote ++ inv.selector ++ pyQuote)))

/-- `close_tab(browser)`: `page.close()`.  No handler-local try. -/
def close_tab (inv : Invocation) : Except Exc ActionResult :=
  step inv.get_current_page fun _ =>
    step inv.page_close fun _ =>
      .ok (ActionResult.success "Tab closed")

/-- `log_page_url(browser)`: reads `page.url` and logs it.  No handler-local
try. -/
def log_page_url (inv : Invocation) : Except Exc ActionResult :=
  step inv.get_current_page fun _ =>
    .ok (ActionResult.success ("Logged URL: " ++ inv.page_url))

/-- `open_new_tab(browser, url)`: `browser.browser.new_page()` then `goto`.
No handler-local try. -/
def open_new_tab (inv : Invocation) : Except Exc ActionResult :=
  step inv.new_page fun _ =>
    step inv.page_goto fun _ =>
      .ok (ActionResult.success ("Opened new tab with URL: " ++ inv.url))

/-- `click_element(browser, selector)`: `page.click` inside try/except. -/
def click_element (inv : Invocation) : Except Exc ActionResult :=
  step inv.get_current_page fun _ =>
    pyTry (step inv.page_click fun _ =>
      .ok (ActionResult.success ("Clicked element with selector: " ++ inv.selector)))

/-- `input_text(browser, selector, text)`: `page.fill` inside try/except. -/
def input_text (inv : Invocation) : Except Exc ActionResult :=
  step inv.get_current_page fun _ =>
    pyTry (step inv.page_fill fun _ =>
      .ok (ActionResult.success ("Input text into element " ++ inv.selector)))

/-- `refresh_page(browser)`: `page.reload` inside try/except. -/
def refresh_page (inv : Invocation) : Except Exc ActionResult :=
  step inv.get_current_page fun _ =>
    pyTry (step inv.page_reload fun _ =>
      .ok (ActionResult.success "Page refreshed"))

/-- `hover_over_element(browser, selector)`: `page.hover` inside
try/except. -/
def hover_over_element (inv : Invocation) : Except Exc ActionResult :=
  step inv.get_current_page fun _ =>
    pyTry (step inv.page_hover fun _ =>
      .ok (ActionResult.success ("Hovered over element: " ++ inv.selector)))

/-- `get_cookies(browser)`: `page.context.cookies()` inside try/except,
success with `str(cookies)` — the Python rendering, not `json.dumps`. -/
def get_cookies (inv : Invocation) : Except Exc ActionResult :=
  step inv.get_current_page fun _ =>
    pyTry (step inv.ctx_cookies fun cookies =>
      .ok (ActionResult.success (pyStr cookies)))

/-- `set_cookies(browser, cookies)`: `json.loads(cookies)` then
`page.context.add_cookies`, inside try/except. -/
def set_cookies (inv : Invocation) : Except Exc ActionResult :=
  step inv.get_current_page fun _ =>
    pyTry (step (pyJsonLoadsStr inv.cookies_arg) fun _cookies_list =>
      step inv.ctx_add_cookies fun _ =>
        .ok (ActionResult.success "Cookies set"))

/-- `download_file(browser, url, download_path)`: expect-download context,
`goto`, resolve the download, optionally save, inside try/except. -/
def download_file (inv : Invocation) : Except Exc ActionResult :=
  step inv.get_current_page fun _ =>
    pyTry (step inv.dl_expect fun _ =>
      step inv.page_goto fun _ =>
        step inv.dl_value fun _ =>
          match inv.download_path with
          | some p =>
            step inv.dl_save fun _ =>
              .ok (ActionResult.success ("Downloaded file saved to " ++ p))
          | none => .ok (ActionResult.success "File downloaded"))

/-- `wait_for_navigation(browser, timeout)`: `page.wait_for_navigation`
inside try/except. -/
def wait_for_navigation (inv : Invocation) : Except Exc ActionResult :=
  step inv.get_current_page fun _ =>
    pyTry (step inv.wait_nav fun _ =>
      .ok (ActionResult.success "Navigation completed"))

/-- `scroll_to_bottom(browser)`: a `window.scrollTo` evaluation inside
try/except. -/
def scroll_to_bottom (inv : Invocation) : Except Exc ActionResult :=
  step inv.get_current_page fun _ =>
    pyTry (step inv.eval_scroll_bottom fun _ =>
      .ok (ActionResult.success "Scrolled to the bottom of the page"))

/-- `scroll_to_top(browser)`: a `window.scrollTo` evaluation inside
try/except. -/
def scroll_to_top (inv : Invocation) : Except Exc ActionResult :=
  step inv.get_current_page fun _ =>
    pyTry (step inv.eval_scroll_top fun _ =>
      .ok (ActionResult.success "Scrolled to the top of the page"))

/-- `simulate_mouse_movement(browser, x, y)`: `page.mouse.move` inside
try/except. -/
def simulate_mouse_movement (inv : Invocation) : Except Exc ActionResult :=
  step inv.get_current_page fun _ =>
    pyTry (step inv.mouse_move fun _ =>
      .ok (ActionResult.success
        ("Mouse moved to coordinates (" ++ toString inv.x ++ ", " ++ toString inv.y ++ ")")))

/-- `extract_all_links(browser)`: anchor-href collection script, success with
`json.dumps(links)`, inside try/except. -/
def extract_all_links (inv : Invocation) : Except Exc ActionResult :=
  step inv.get_current_page fun _ =>
    pyTry (step inv.eval_links fun links =>
      .ok (ActionResult.success (pyJsonDumps (.vList (links.map PyVal.vStr)))))

/-- `extract_all_images(browser)`: image-src collection script, success with
`json.dumps(images)`, inside try/except. -/
def extract_all_images (inv : Invocation) : Except Exc ActionResult :=
  step inv.get_current_page fun _ =>
    pyTry (step inv.eval_images fun images =>
      .ok (ActionResult.success (pyJsonDumps (.vList (images.map PyVal.vStr)))))

/-- `extract_table_data(browser, selector)`: table-cell collection script,
success with `json.dumps(table_data)`, inside try/except. -/
def extract_table_data (inv : Invocation) : Except Exc ActionResult :=
  step inv.get_current_page fun _ =>
    pyTry (step inv.eval_table fun table_data =>
      .ok (ActionResult.success
        (pyJsonDumps (.vList (table_data.map fun row => .vList (row.map PyVal.vStr))))))

/-- The per-field `page.fill` loop of `fill_and_submit_form`: each iteration
delegates to the driver and a raised fault aborts the remaining fields. -/
def fillFields (inv : Invocation) : List (String × PyVal) → Except Exc Unit
  | [] => .ok ()
  | _ :: rest =>
    match inv.page_fill with
    | .error e => .error e
    | .ok _ => fillFields inv rest

/-- `fill_and_submit_form(browser, form_selector, data)`: `json.loads(data)`,
iterate `.items()` filling each field, click submit, inside try/except. -/
def fill_and_submit_form (inv : Invocation) : Except Exc ActionResult :=
  step inv.get_current_page fun _ =>
    pyTry (step (pyJsonLoadsStr inv.form_data) fun data_dict =>
      step (itemsOf data_dict) fun kvs =>
        step (fillFields inv kvs) fun _ =>
          step inv.page_click fun _ =>
            .ok (ActionResult.success "Form filled and submitted"))

/-- `handle_popup(browser, action)`: register a dialog callback for
`"accept"`/`"dismiss"` (nothing otherwise), success either way, inside
try/except. -/
def handle_popup (inv : Invocation) : Except Exc ActionResult :=
  step inv.get_current_page fun _ =>
    pyTry (
      if inv.popup_action = "accept" then
        step inv.page_on_dialog fun _ =>
          .ok (ActionResult.success ("Popup handled: " ++ inv.popup_action))
      else if inv.popup_action = "dismiss" then
        step inv.page_on_dialog fun _ =>
          .ok (ActionResult.success ("Popup handled: " ++ inv.popup_action))
      else .ok (ActionResult.success ("Popup handled: " ++ inv.popup_action)))

/-- `switch_to_iframe(browser, iframe_selector)`: `query_selector`, then
either enter the content frame (success) or return a direct failure result,
inside try/except. -/
def switch_to_iframe (inv : Invocation) : Except Exc ActionResult :=
  step inv.get_current_page fun _ =>
    pyTry (step inv.query_selector fun found =>
      match found with
      | true =>
        step inv.content_frame fun _ =>
          .ok (ActionResult.success ("Switched to iframe: " ++ inv.iframe_selector))
      | false => .ok (ActionResult.failure "Iframe not found"))

/-- `log_console_output(browser)`: register a console callback, inside
try/except. -/
def log_console_output (inv : Invocation) : Except Exc ActionResult :=
  step inv.get_current_page fun _ =>
    pyTry (step inv.page_on_console fun _ =>
      .ok (ActionResult.success "Console logging enabled"))

/-- `capture_network_requests(browser)`: create the local `requests` list,
register the request callback, and serialize the list — still empty at
serialization time — inside try/except. -/
def capture_network_requests (inv : Invocation) : Except Exc ActionResult :=
  step inv.get_current_page fun _ =>
    pyTry (
      let requests : List String := []
      step inv.page_on_request fun _ =>
        .ok (ActionResult.success (pyJsonDumps (.vList (requests.map PyVal.vStr)))))

/-- `clear_browser_cache(browser)`: `page.context.clear_cache()` inside
try/except. -/
def clear_browser_cache (inv : Invocation) : Except Exc ActionResult :=
  step inv.get_current_page fun _ =>
    pyTry (step inv.ctx_clear_cache fun _ =>
      .ok (ActionResult.success "Browser cache cleared"))

/-- `take_full_page_screenshot(browser)`: full-page screenshot bytes,
base64-encoded behind the data-URL prefix, inside try/except. -/
def take_full_page_screenshot (inv : Invocation) : Except Exc ActionResult :=
  step inv.get_current_page fun _ =>
    pyTry (step inv.page_screenshot_full fun screenshot =>
      .ok (ActionResult.success (dataUrlTag ++ b64encodeStr screenshot)))

/-- Body of `call_external_api(browser, url, method, data)` with its
outgoing-request count.  `method == "GET"` and `method == "POST"` issue one
request; any other method leaves the local `result` unbound, so the trailing
`return ActionResult(extracted_content=result)` raises `UnboundLocalError`,
caught by the handler's own except branch; a POST whose `data` fails
`json.loads` raises before any request is issued. -/
def call_external_api_core (inv : Invocation) : Except Exc ActionResult × Nat :=
  if inv.method = "GET" then
    match inv.http_get with
    | .ok r => (.ok (ActionResult.success r), 1)
    | .error e => (.ok (ActionResult.failure e.msg), 1)
  else if inv.method = "POST" then
    match pyJsonLoadsOpt inv.data_arg with
    | .error e => (.ok (ActionResult.failure e.msg), 0)
    | .ok _ =>
      match inv.http_post with
      | .ok r => (.ok (ActionResult.success r), 1)
      | .error e => (.ok (ActionResult.failure e.msg), 1)
  else (.ok (ActionResult.failure unboundLocalMsg), 0)

/-- `call_external_api` as registered: the result component of the body. -/
def call_external_api (inv : Invocation) : Except Exc ActionResult :=
  (call_external_api_core inv).1

/-- The warning `logger.warning(f"Retry (i+1) failed: (e)")` emits for the
zero-based attempt `i` that raised `e`. -/
def warnMsg (k : Nat) (e : Exc) : String :=
  "Retry " ++ toString k ++ " failed: " ++ e.msg

/-- The terminal failure message of the retry wrapper. -/
def retryFailMsg (action_name : String) (max_retries : Nat) : String :=
  "Action " ++ pyQuote ++ action_name ++ pyQuote ++ " failed after " ++
    toString max_retries ++ " retries"

/-- The `for _ in range(max_retries)` loop of `retry_failed_action`, started
at attempt index `i` with `remaining` iterations left: the first normally
returned result (if any), the number of `execute_action` invocations made,
and the warnings logged for raising attempts, in order. -/
def retryGo (attempts : Nat → Except Exc ActionResult) (i : Nat) :
    Nat → Option ActionResult × Nat × List String
  | 0 => (none, 0, [])
  | remaining + 1 =>
    match attempts i with
    | .ok res => (some res, 1, [])
    | .error e =>
      let t := retryGo attempts (i + 1) remaining
      (t.1, t.2.1 + 1, warnMsg (i + 1) e :: t.2.2)

/-- `retry_failed_action(browser, action_name, max_retries)`, instrumented
with its observable trace: the returned `ActionResult`, the number of
`execute_action` invocations, and the logged warnings.  `attempts i` is the
outcome of the `i`-th `self.registry.execute_action(action_name, browser)`
call (`Except.error` models a raised fault, the only thing the loop's
except branch retries on). -/
def retry_failed_action (attempts : Nat → Except Exc ActionResult)
    (action_name : String) (max_retries : Nat) : ActionResult × Nat × List String :=
  let t := retryGo attempts 0 max_retries
  (t.1.getD (ActionResult.failure (retryFailMsg action_name max_retries)), t.2)

/-- `retry_failed_action` as registered: a handler that never raises. -/
def retry_failed_action_invoke (inv : Invocation) : Except Exc ActionResult :=
  .ok (retry_failed_action inv.attempts inv.action_name inv.max_retries).1

/-- The registered action names (the handler function names the registry
dispatches on), in registration order. -/
def actionNames : List String :=
  ["copy_to_clipboard", "paste_from_clipboard", "take_screenshot",
   "extract_main_content", "wait_for_element", "execute_js",
   "scroll_to_element", "close_tab", "log_page_url", "open_new_tab",
   "click_element", "input_text", "refresh_page", "hover_over_element",
   "get_cookies", "set_cookies", "download_file", "wait_for_navigation",
   "scroll_to_bottom", "scroll_to_top", "simulate_mouse_movement",
   "extract_all_links", "extract_all_images", "extract_table_data",
   "fill_and_submit_form", "handle_popup", "switch_to_iframe",
   "log_console_output", "capture_network_requests", "clear_browser_cache",
   "take_full_page_screenshot", "call_external_api", "retry_failed_action"]

/-- The registry's name-to-handler mapping, `lookup` of spec section 4.1. -/
def lookupAction (name : String) : Option (Invocation → Except Exc ActionResult) :=
  if name = "copy_to_clipboard" then some copy_to_clipboard
  else if name = "paste_from_clipboard" then some paste_from_clipboard
  else if name = "take_screenshot" then some take_screenshot
  else if name = "extract_main_content" then some extract_main_content
  else if name = "wait_for_element" then some wait_for_element
  else if name = "execute_js" then some execute_js
  else if name = "scroll_to_element" then some scroll_to_element
  else if name = "close_tab" then some close_tab
  else if name = "log_page_url" then some log_page_url
  else if name = "open_new_tab" then some open_new_tab
  else if name = "click_element" then some click_element
  else if name = "input_text" then some input_text
  else if name = "refresh_page" then some refresh_page
  else if name = "hover_over_element" then some hover_over_element
  else if name = "get_cookies" then some get_cookies
  else if name = "set_cookies" then some set_cookies
  else if name = "download_file" then some download_file
  else if name = "wait_for_navigation" then some wait_for_navigation
  else if name = "scroll_to_bottom" then some scroll_to_bottom
  else if name = "scroll_to_top" then some scroll_to_top
  else if name = "simulate_mouse_movement" then some simulate_mouse_movement
  else if name = "extract_all_links" then some extract_all_links
  else if name = "extract_all_images" then some extract_all_images
  else if name = "extract_table_data" then some extract_table_data
  else if name = "fill_and_submit_form" then some fill_and_submit_form
  else if name = "handle_popup" then some handle_popup
  else if name = "switch_to_iframe" then some switch_to_iframe
  else if name = "log_console_output" then some log_console_output
  else if name = "capture_network_requests" then some capture_network_requests
  else if name = "clear_browser_cache" then some clear_browser_cache
  else if name = "take_full_page_screenshot" then some take_full_page_screenshot
  else if name = "call_external_api" then some call_external_api
  else if name = "retry_failed_action" then some retry_failed_action_invoke
  else none

/-- Invoking a registered action by name: lookup, run the handler, and pass
the outcome through the registry execute boundary. -/
def invoke (name : String) (inv : Invocation) : Option ActionResult :=
  match lookupAction name with
  | some h => some (execute_action (h inv))
  | none => none

/-- A session in which every fallible collaborator call raises `e`: each
driver, clipboard, extractor and HTTP operation the handlers can reach, and
every `execute_action` attempt made by the retry wrapper. -/
structure AllRaise (inv : Invocation) (e : Exc) : Prop where
  get_current_page : inv.get_current_page = .error e
  clip_copy : inv.clip_copy = .error e
  clip_paste : inv.clip_paste = .error e
  keyboard_type : inv.keyboard_type = .error e
  page_screenshot : inv.page_screenshot = .error e
  page_screenshot_full : inv.page_screenshot_full = .error e
  page_content : inv.page_content = .error e
  extract_main : inv.extract_main = .error e
  wait_selector : inv.wait_selector = .error e
  eval_script : inv.eval_script = .error e
  eval_scroll_into : inv.eval_scroll_into = .error e
  eval_scroll_bottom : inv.eval_scroll_bottom = .error e
  eval_scroll_top : inv.eval_scroll_top = .error e
  eval_links : inv.eval_links = .error e
  eval_images : inv.eval_images = .error e
  eval_table : inv.eval_table = .error e
  page_close : inv.page_close = .error e
  new_page : inv.new_page = .error e
  page_goto : inv.page_goto = .error e
  ctx_cookies : inv.ctx_cookies = .error e
  ctx_add_cookies : inv.ctx_add_cookies = .error e
  ctx_clear_cache : inv.ctx_clear_cache = .error e
  dl_expect : inv.dl_expect = .error e
  dl_value : inv.dl_value = .error e
  dl_save : inv.dl_save = .error e
  mouse_move : inv.mouse_move = .error e
  page_click : inv.page_click = .error e
  page_fill : inv.page_fill = .error e
  page_reload : inv.page_reload = .error e
  page_hover : inv.page_hover = .error e
  page_on_dialog : inv.page_on_dialog = .error e
  page_on_console : inv.page_on_console = .error e
  page_on_request : inv.page_on_request = .error e
  query_selector : inv.query_selector = .error e
  content_frame : inv.content_frame = .error e
  http_get : inv.http_get = .error e
  http_post : inv.http_post = .error e
  wait_nav : inv.wait_nav = .error e
  attempts : ∀ i, inv.attempts i = .error e

/-- A concrete session whose every fallible collaborator call raises
`Exc.mk "boom"`. -/
def invBoom : Invocation where
  text := "hello"
  script := "1 + 1"
  selector := "#main"
  url := "http://example.com/"
  timeout := 5000
  x := 10
  y := 20
  data_arg := none
  form_selector := "#form"
  form_data := "\x7b\x7d"
  popup_action := "accept"
  iframe_selector := "#frame"
  download_path := none
  cookies_arg := "[]"
  action_name := "click_element"
  max_retries := 3
  method := "PUT"
  page_url := "http://example.com/"
  get_current_page := .error ⟨"boom"⟩
  clip_copy := .error ⟨"boom"⟩
  clip_paste := .error ⟨"boom"⟩
  keyboard_type := .error ⟨"boom"⟩
  page_screenshot := .error ⟨"boom"⟩
  page_screenshot_full := .error ⟨"boom"⟩
  page_content := .error ⟨"boom"⟩
  extract_main := .error ⟨"boom"⟩
  wait_selector := .error ⟨"boom"⟩
  eval_script := .error ⟨"boom"⟩
  eval_scroll_into := .error ⟨"boom"⟩
  eval_scroll_bottom := .error ⟨"boom"⟩
  eval_scroll_top := .error ⟨"boom"⟩
  eval_links := .error ⟨"boom"⟩
  eval_images := .error ⟨"boom"⟩
  eval_table := .error ⟨"boom"⟩
  page_close := .error ⟨"boom"⟩
  new_page := .error ⟨"boom"⟩
  page_goto := .error ⟨"boom"⟩
  ctx_cookies := .error ⟨"boom"⟩
  ctx_add_cookies := .error ⟨"boom"⟩
  ctx_clear_cache := .error ⟨"boom"⟩
  dl_expect := .error ⟨"boom"⟩
  dl_value := .error ⟨"boom"⟩
  dl_save := .error ⟨"boom"⟩
  mouse_move := .error ⟨"boom"⟩
  page_click := .error ⟨"boom"⟩
  page_fill := .error ⟨"boom"⟩
  page_reload := .error ⟨"boom"⟩
  page_hover := .error ⟨"boom"⟩
  page_on_dialog := .error ⟨"boom"⟩
  page_on_console := .error ⟨"boom"⟩
  page_on_request := .error ⟨"boom"⟩
  query_selector := .error ⟨"boom"⟩
  content_frame := .error ⟨"boom"⟩
  http_get := .error ⟨"boom"⟩
  http_post := .error ⟨"boom"⟩
  wait_nav := .error ⟨"boom"⟩
  attempts := fun _ => .error ⟨"boom"⟩

/-- A concrete session whose every collaborator call succeeds with benign
values. -/
def invOk : Invocation where
  text := "hello"
  script := "document.title"
  selector := "#main"
  url := "http://example.com/"
  timeout := 5000
  x := 10
  y := 20
  data_arg := some "\x7b\x7d"
  form_selector := "#form"
  form_data := "\x7b\x7d"
  popup_action := "accept"
  iframe_selector := "#frame"
  download_path := none
  cookies_arg := "[]"
  action_name := "click_element"
  max_retries := 3
  method := "GET"
  page_url := "http://example.com/"
  get_current_page := .ok ()
  clip_copy := .ok ()
  clip_paste := .ok "pasted"
  keyboard_type := .ok ()
  page_screenshot := .ok [137, 80, 78, 71]
  page_screenshot_full := .ok [137, 80, 78, 71]
  page_content := .ok "<html></html>"
  extract_main := .ok "main text"
  wait_selector := .ok ()
  eval_script := .ok (.vStr "Title")
  eval_scroll_into := .ok ()
  eval_scroll_bottom := .ok ()
  eval_scroll_top := .ok ()
  eval_links := .ok ["http://example.com/a", "http://example.com/b"]
  eval_images := .ok []
  eval_table := .ok []
  page_close := .ok ()
  new_page := .ok ()
  page_goto := .ok ()
  ctx_cookies := .ok (.vList [])
  ctx_add_cookies := .ok ()
  ctx_clear_cache := .ok ()
  dl_expect := .ok ()
  dl_value := .ok ()
  dl_save := .ok ()
  mouse_move := .ok ()
  page_click := .ok ()
  page_fill := .ok ()
  page_reload := .ok ()
  page_hover := .ok ()
  page_on_dialog := .ok ()
  page_on_console := .ok ()
  page_on_request := .ok ()
  query_selector := .ok true
  content_frame := .ok ()
  http_get := .ok "response body"
  http_post := .ok "response body"
  wait_nav := .ok ()
  attempts := fun _ => .ok (ActionResult.success "ok")

/-- A handler body whose normally returned results all populate exactly one
`ActionResult` variant. -/
def WFbody (b : Except Exc ActionResult) : Prop :=
  ∀ r, b = Except.ok r → exactlyOne r

/-- Attempt outcomes that only ever return well-formed results normally (as
invocations of registered handlers do). -/
def WFattempts (inv : Invocation) : Prop :=
  ∀ i r, inv.attempts i = Except.ok r → exactlyOne r

/-- The one-cookie collection used to exhibit the cookie round-trip
behaviour. -/
def cookieVal : PyVal :=
  .vList [.vDict [("name", .vStr "a"), ("value", .vStr "b")]]

/-- A session holding `cookieVal`: `add_cookies` succeeds and
`page.context.cookies()` yields exactly the set collection. -/
def invCookie : Invocation :=
  { invOk with cookies_arg := pyJsonDumps cookieVal, ctx_cookies := .ok cookieVal }

/-- A second one-cookie collection, for the amended-claim witness. -/
def cookieVal2 : PyVal :=
  .vList [.vDict [("name", .vStr "sid"), ("value", .vStr "xyz"), ("path", .vStr "/")]]

/-- A session holding `cookieVal2`. -/
def invCookie2 : Invocation :=
  { invOk with cookies_arg := pyJsonDumps cookieVal2, ctx_cookies := .ok cookieVal2 }

theorem exOne_success (c : String) : exactlyOne (ActionResult.success c) :=
  Or.inl ⟨rfl, rfl⟩

theorem exOne_failure (m : String) : exactlyOne (ActionResult.failure m) :=
  Or.inr ⟨rfl, rfl⟩

theorem okWf (r : ActionResult) (h : exactlyOne r) : WFbody (Except.ok r) :=
  fun _ hr => (Except.ok.inj hr) ▸ h

theorem stepWf {α : Type} (x : Except Exc α) (k : α → Except Exc ActionResult)
    (h : ∀ a, WFbody (k a)) : WFbody (step x k) := by
  cases x with
  | error e => intro r hr; exact Except.noConfusion hr
  | ok a => exact h a

theorem pyTryWf (b : Except Exc ActionResult) (h : WFbody b) : WFbody (pyTry b) := by
  cases b with
  | ok r0 =>
    intro r hr
    exact (Except.ok.inj hr) ▸ h r0 rfl
  | error e =>
    intro r hr
    exact (Except.ok.inj hr) ▸ exOne_failure e.msg

theorem execWf (b : Except Exc ActionResult) (h : WFbody b) :
    exactlyOne (execute_action b) := by
  cases b with
  | ok r => exact h r rfl
  | error e => exact exOne_failure e.msg

theorem wf_wait_for_element (inv : Invocation) :
    exactlyOne (execute_action (wait_for_element inv)) :=
  execWf _ (stepWf _ _ fun _ => pyTryWf _ (stepWf _ _ fun _ => okWf _ (exOne_success _)))

theorem wf_copy_to_clipboard (inv : Invocation) :
    exactlyOne (execute_action (copy_to_clipboard inv)) :=
  execWf _ (stepWf _ _ fun _ => okWf _ (exOne_success _))

theorem wf_paste_from_clipboard (inv : Invocation) :
    exactlyOne (execute_action (paste_from_clipboard inv)) :=
  execWf _ (stepWf _ _ fun _ => stepWf _ _ fun _ => stepWf _ _ fun _ =>
    okWf _ (exOne_success _))

theorem wf_take_screenshot (inv : Invocation) :
    exactlyOne (execute_action (take_screenshot inv)) :=
  execWf _ (stepWf _ _ fun _ => stepWf _ _ fun _ => okWf _ (exOne_success _))

theorem wf_extract_main_content (inv : Invocation) :
    exactlyOne (execute_action (extract_main_content inv)) :=
  execWf _ (stepWf _ _ fun _ => stepWf _ _ fun _ => stepWf _ _ fun _ =>
    okWf _ (exOne_success _))

theorem wf_execute_js (inv : Invocation) :
    exactlyOne (execute_action (execute_js inv)) :=
  execWf _ (stepWf _ _ fun _ => stepWf _ _ fun _ => okWf _ (exOne_success _))

theorem wf_scroll_to_element (inv : Invocation) :
    exactlyOne (execute_action (scroll_to_element inv)) :=
  execWf _ (stepWf _ _ fun _ => pyTryWf _ (stepWf _ _ fun _ => okWf _ (exOne_success _)))

theorem wf_close_tab (inv : Invocation) :
    exactlyOne (execute_action (close_tab inv)) :=
  execWf _ (stepWf _ _ fun _ => stepWf _ _ fun _ => okWf _ (exOne_success _))

theorem wf_log_page_url (inv : Invocation) :
    exactlyOne (execute_action (log_page_url inv)) :=
  execWf _ (stepWf _ _ fun _ => okWf _ (exOne_success _))

theorem wf_open_new_tab (inv : Invocation) :
    exactlyOne (execute_action (open_new_tab inv)) :=
  execWf _ (stepWf _ _ fun _ => stepWf _ _ fun _ => okWf _ (exOne_success _))

theorem wf_click_element (inv : Invocation) :
    exactlyOne (execute_action (click_element inv)) :=
  execWf _ (stepWf _ _ fun _ => pyTryWf _ (stepWf _ _ fun _ => okWf _ (exOne_success _)))

theorem wf_input_text (inv : Invocation) :
    exactlyOne (execute_action (input_text inv)) :=
  execWf _ (stepWf _ _ fun _ => pyTryWf _ (stepWf _ _ fun _ => okWf _ (exOne_success _)))

theorem wf_refresh_page (inv : Invocation) :
    exactlyOne (execute_action (refresh_page inv)) :=
  execWf _ (stepWf _ _ fun _ => pyTryWf _ (stepWf _ _ fun _ => okWf _ (exOne_success _)))

theorem wf_hover_over_element (inv : Invocation) :
    exactlyOne (execute_action (hover_over_element inv)) :=
  execWf _ (stepWf _ _ fun _ => pyTryWf _ (stepWf _ _ fun _ => okWf _ (exOne_success _)))

theorem wf_get_cookies (inv : Invocation) :
    exactlyOne (execute_action (get_cookies inv)) :=
  execWf _ (stepWf _ _ fun _ => pyTryWf _ (stepWf _ _ fun _ => okWf _ (exOne_success _)))

theorem wf_set_cookies (inv : Invocation) :
    exactlyOne (execute_action (set_cookies inv)) :=
  execWf _ (stepWf _ _ fun _ => pyTryWf _ (stepWf _ _ fun _ => stepWf _ _ fun _ =>
    okWf _ (exOne_success _)))

theorem wf_download_file (inv : Invocation) :
    exactlyOne (execute_action (download_file inv)) := by
  refine execWf _ (stepWf _ _ fun _ => pyTryWf _ (stepWf _ _ fun _ =>
    stepWf _ _ fun _ => stepWf _ _ fun _ => ?_))
  cases inv.download_path with
  | some p => exact stepWf _ _ fun _ => okWf _ (exOne_success _)
  | none => exact okWf _ (exOne_success _)

theorem wf_wait_for_navigation (inv : Invocation) :
    exactlyOne (execute_action (wait_for_navigation inv)) :=
  execWf _ (stepWf _ _ fun _ => pyTryWf _ (stepWf _ _ fun _ => okWf _ (exOne_success _)))

theorem wf_scroll_to_bottom (inv : Invocation) :
    exactlyOne (execute_action (scroll_to_bottom inv)) :=
  execWf _ (stepWf _ _ fun _ => pyTryWf _ (stepWf _ _ fun _ => okWf _ (exOne_success _)))

theorem wf_scroll_to_top (inv : Invocation) :
    exactlyOne (execute_action (scroll_to_top inv)) :=
  execWf _ (stepWf _ _ fun _ => pyTryWf _ (stepWf _ _ fun _ => okWf _ (exOne_success _)))

theorem wf_simulate_mouse_movement (inv : Invocation) :
    exactlyOne (execute_action (simulate_mouse_movement inv)) :=
  execWf _ (stepWf _ _ fun _ => pyTryWf _ (stepWf _ _ fun _ => okWf _ (exOne_success _)))

theorem wf_extract_all_links (inv : Invocation) :
    exactlyOne (execute_action (extract_all_links inv)) :=
  execWf _ (stepWf _ _ fun _ => pyTryWf _ (stepWf _ _ fun _ => okWf _ (exOne_success _)))

theorem wf_extract_all_images (inv : Invocation) :
    exactlyOne (execute_action (extract_all_images inv)) :=
  execWf _ (stepWf _ _ fun _ => pyTryWf _ (stepWf _ _ fun _ => okWf _ (exOne_success _)))

theorem wf_extract_table_data (inv : Invocation) :
    exactlyOne (execute_action (extract_table_data inv)) :=
  execWf _ (stepWf _ _ fun _ => pyTryWf _ (stepWf _ _ fun _ => okWf _ (exOne_success _)))

theorem wf_fill_and_submit_form (inv : Invocation) :
    exactlyOne (execute_action (fill_and_submit_form inv)) :=
  execWf _ (stepWf _ _ fun _ => pyTryWf _ (stepWf _ _ fun _ => stepWf _ _ fun _ =>
    stepWf _ _ fun _ => stepWf _ _ fun _ => okWf _ (exOne_success _)))

theorem wf_handle_popup (inv : Invocation) :
    exactlyOne (execute_action (handle_popup inv)) := by
  refine execWf _ (stepWf _ _ fun _ => pyTryWf _ ?_)
  by_cases h1 : inv.popup_action = "accept"
  · rw [if_pos h1]
    exact stepWf _ _ fun _ => okWf _ (exOne_success _)
  · rw [if_neg h1]
    by_cases h2 : inv.popup_action = "dismiss"
    · rw [if_pos h2]
      exact stepWf _ _ fun _ => okWf _ (exOne_success _)
    · rw [if_neg h2]
      exact okWf _ (exOne_success _)

theorem wf_switch_to_iframe (inv : Invocation) :
    exactlyOne (execute_action (switch_to_iframe inv)) := by
  refine execWf _ (stepWf _ _ fun _ => pyTryWf _ (stepWf _ _ fun found => ?_))
  cases found with
  | true => exact stepWf _ _ fun _ => okWf _ (exOne_success _)
  | false => exact okWf _ (exOne_failure _)

theorem wf_log_console_output (inv : Invocation) :
    exactlyOne (execute_action (log_console_output inv)) :=
  execWf _ (stepWf _ _ fun _ => pyTryWf _ (stepWf _ _ fun _ => okWf _ (exOne_success _)))

theorem wf_capture_network_requests (inv : Invocation) :
    exactlyOne (execute_action (capture_network_requests inv)) :=
  execWf _ (stepWf _ _ fun _ => pyTryWf _ (stepWf _ _ fun _ => okWf _ (exOne_success _)))

theorem wf_clear_browser_cache (inv : Invocation) :
    exactlyOne (execute_action (clear_browser_cache inv)) :=
  execWf _ (stepWf _ _ fun _ => pyTryWf _ (stepWf _ _ fun _ => okWf _ (exOne_success _)))

theorem wf_take_full_page_screenshot (inv : Invocation) :
    exactlyOne (execute_action (take_full_page_screenshot inv)) :=
  execWf _ (stepWf _ _ fun _ => pyTryWf _ (stepWf _ _ fun _ => okWf _ (exOne_success _)))

theorem wf_call_external_api (inv : Invocation) :
    exactlyOne (execute_action (call_external_api inv)) := by
  apply execWf
  intro r hr
  unfold call_external_api call_external_api_core at hr
  by_cases hg : inv.method = "GET"
  · rw [if_pos hg] at hr
    cases h : inv.http_get <;> rw [h] at hr <;>
      first
      | exact (Except.ok.inj hr) ▸ exOne_success _
      | exact (Except.ok.inj hr) ▸ exOne_failure _
  · rw [if_neg hg] at hr
    by_cases hp : inv.method = "POST"
    · rw [if_pos hp] at hr
      cases hj : pyJsonLoadsOpt inv.data_arg with
      | error e => rw [hj] at hr; exact (Except.ok.inj hr) ▸ exOne_failure _
      | ok v =>
        rw [hj] at hr
        cases h : inv.http_post <;> rw [h] at hr <;>
          first
          | exact (Except.ok.inj hr) ▸ exOne_success _
          | exact (Except.ok.inj hr) ▸ exOne_failure _
    · rw [if_neg hp] at hr
      exact (Except.ok.inj hr) ▸ exOne_failure _

theorem retryGo_all_error (attempts : Nat → Except Exc ActionResult)
    (errs : Nat → Exc) :
    ∀ (rem start : Nat),
      (∀ k, k < rem → attempts (start + k) = .error (errs (start + k))) →
      retryGo attempts start rem =
        (none, rem,
          (List.range rem).map fun k => warnMsg (start + k + 1) (errs (start + k))) := by
  intro rem
  induction rem with
  | zero => intro start _; simp [retryGo]
  | succ r ih =>
    intro start h
    have h0 : attempts start = .error (errs start) := by
      have := h 0 (Nat.succ_pos r)
      simpa using this
    have ihApp := ih (start + 1) (fun k hk => by
      have := h (k + 1) (by omega)
      have e1 : start + (k + 1) = start + 1 + k := by omega
      rw [e1] at this
      exact this)
    simp only [retryGo, h0, ihApp, Prod.mk.injEq, true_and]
    rw [List.range_succ_eq_map, List.map_cons, List.map_map]
    simp only [List.cons.injEq]
    refine ⟨by simp, ?_⟩
    refine List.map_congr_left (fun k _ => ?_)
    have e2 : start + 1 + k = start + (k + 1) := by omega
    simp only [Function.comp_apply, Nat.succ_eq_add_one, e2]

theorem retryGo_ok_at (attempts : Nat → Except Exc ActionResult) (res : ActionResult) :
    ∀ (j start rem : Nat), j < rem →
      (∀ k, k < j → ∃ e, attempts (start + k) = .error e) →
      attempts (start + j) = .ok res →
      (retryGo attempts start rem).1 = some res ∧
        (retryGo attempts start rem).2.1 = j + 1 := by
  intro j
  induction j with
  | zero =>
    intro start rem hlt _ hok
    cases rem with
    | zero => omega
    | succ r =>
      rw [Nat.add_zero] at hok
      simp [retryGo, hok]
  | succ j ih =>
    intro start rem hlt hraise hok
    cases rem with
    | zero => omega
    | succ r =>
      obtain ⟨e, he⟩ := hraise 0 (Nat.succ_pos j)
      rw [Nat.add_zero] at he
      have ihApp := ih (start + 1) r (by omega)
        (fun k hk => by
          obtain ⟨e2, he2⟩ := hraise (k + 1) (by omega)
          have e1 : start + (k + 1) = start + 1 + k := by omega
          rw [e1] at he2
          exact ⟨e2, he2⟩)
        (by
          have e1 : start + (j + 1) = start + 1 + j := by omega
          rw [e1] at hok
          exact hok)
      simp only [retryGo, he]
      exact ⟨ihApp.1, by simp only [ihApp.2]⟩

theorem retryGo_outcome_ok (attempts : Nat → Except Exc ActionResult)
    (res : ActionResult) :
    ∀ (rem start : Nat), (retryGo attempts start rem).1 = some res →
      ∃ i, attempts i = .ok res := by
  intro rem
  induction rem with
  | zero => intro start h; simp [retryGo] at h
  | succ r ih =>
    intro start h
    cases ha : attempts start with
    | ok r0 =>
      simp only [retryGo, ha, Option.some.injEq] at h
      exact ⟨start, h ▸ ha⟩
    | error e =>
      simp only [retryGo, ha] at h
      exact ih (start + 1) h

theorem wf_retry_failed_action_invoke (inv : Invocation) (hA : WFattempts inv) :
    exactlyOne (execute_action (retry_failed_action_invoke inv)) := by
  show exactlyOne (retry_failed_action inv.attempts inv.action_name inv.max_retries).1
  unfold retry_failed_action
  cases ht : (retryGo inv.attempts 0 inv.max_retries).1 with
  | none => simp only [ht, Option.getD_none]; exact exOne_failure _
  | some res =>
    simp only [ht, Option.getD_some]
    obtain ⟨i, hi⟩ := retryGo_outcome_ok inv.attempts res inv.max_retries 0 ht
    exact hA i res hi

theorem retryFailMsg_ne_empty (name : String) (n : Nat) : retryFailMsg name n ≠ "" := by
  intro h
  have hd := congrArg String.data h
  rw [retryFailMsg] at hd
  simp [String.data_append] at hd

/-- C1: for every registered action handler and every session whose
collaborator calls raise an exception with non-empty text, invoking the
handler through the registry boundary yields a `Failure` result with a
non-empty message; no exception propagates past the action boundary (the
invocation always evaluates to `some` result).  In particular this covers
`execute_js` and `take_screenshot`, which have no handler-local try. -/
theorem allHandlers_failure_on_driver_raise :
    ∀ name, name ∈ actionNames → ∀ (inv : Invocation) (e : Exc),
      AllRaise inv e → e.msg ≠ "" →
      ∃ m, invoke name inv = some (ActionResult.failure m) ∧ m ≠ "" := by
  intro name hmem inv e hAll hne
  fin_cases hmem
  · refine ⟨e.msg, ?_, hne⟩
    show some (execute_action (copy_to_clipboard inv)) = _
    simp [copy_to_clipboard, step, hAll.clip_copy, execute_action]
  · refine ⟨e.msg, ?_, hne⟩
    show some (execute_action (paste_from_clipboard inv)) = _
    simp [paste_from_clipboard, step, hAll.clip_paste, execute_action]
  · refine ⟨e.msg, ?_, hne⟩
    show some (execute_action (take_screenshot inv)) = _
    simp [take_screenshot, step, hAll.get_current_page, execute_action]
  · refine ⟨e.msg, ?_, hne⟩
    show some (execute_action (extract_main_content inv)) = _
    simp [extract_main_content, step, hAll.get_current_page, execute_action]
  · refine ⟨e.msg, ?_, hne⟩
    show some (execute_action (wait_for_element inv)) = _
    simp [wait_for_element, step, hAll.get_current_page, execute_action]
  · refine ⟨e.msg, ?_, hne⟩
    show some (execute_action (execute_js inv)) = _
    simp [execute_js, step, hAll.get_current_page, execute_action]
  · refine ⟨e.msg, ?_, hne⟩
    show some (execute_action (scroll_to_element inv)) = _
    simp [scroll_to_element, step, hAll.get_current_page, execute_action]
  · refine ⟨e.msg, ?_, hne⟩
    show some (execute_action (close_tab inv)) = _
    simp [close_tab, step, hAll.get_current_page, execute_action]
  · refine ⟨e.msg, ?_, hne⟩
    show some (execute_action (log_page_url inv)) = _
    simp [log_page_url, step, hAll.get_current_page, execute_action]
  · refine ⟨e.msg, ?_, hne⟩
    show some (execute_action (open_new_tab inv)) = _
    simp [open_new_tab, step, hAll.new_page, execute_action]
  · refine ⟨e.msg, ?_, hne⟩
    show some (execute_action (click_element inv)) = _
    simp [click_element, step, hAll.get_current_page, execute_action]
  · refine ⟨e.msg, ?_, hne⟩
    show some (execute_action (input_text inv)) = _
    simp [input_text, step, hAll.get_current_page, execute_action]
  · refine ⟨e.msg, ?_, hne⟩
    show some (execute_action (refresh_page inv)) = _
    simp [refresh_page, step, hAll.get_current_page, execute_action]
  · refine ⟨e.msg, ?_, hne⟩
    show some (execute_action (hover_over_element inv)) = _
    simp [hover_over_element, step, hAll.get_current_page, execute_action]
  · refine ⟨e.msg, ?_, hne⟩
    show some (execute_action (get_cookies inv)) = _
    simp [get_cookies, step, hAll.get_current_page, execute_action]
  · refine ⟨e.msg, ?_, hne⟩
    show some (execute_action (set_cookies inv)) = _
    simp [set_cookies, step, hAll.get_current_page, execute_action]
  · refine ⟨e.msg, ?_, hne⟩
    show some (execute_action (download_file inv)) = _
    simp [download_file, step, hAll.get_current_page, execute_action]
  · refine ⟨e.msg, ?_, hne⟩
    show some (execute_action (wait_for_navigation inv)) = _
    simp [wait_for_navigation, step, hAll.get_current_page, execute_action]
  · refine ⟨e.msg, ?_, hne⟩
    show some (execute_action (scroll_to_bottom inv)) = _
    simp [scroll_to_bottom, step, hAll.get_current_page, execute_action]
  · refine ⟨e.msg, ?_, hne⟩
    show some (execute_action (scroll_to_top inv)) = _
    simp [scroll_to_top, step, hAll.get_current_page, execute_action]
  · refine ⟨e.msg, ?_, hne⟩
    show some (execute_action (simulate_mouse_movement inv)) = _
    simp [simulate_mouse_movement, step, hAll.get_current_page, execute_action]
  · refine ⟨e.msg, ?_, hne⟩
    show some (execute_action (extract_all_links inv)) = _
    simp [extract_all_links, step, hAll.get_current_page, execute_action]
  · refine ⟨e.msg, ?_, hne⟩
    show some (execute_action (extract_all_images inv)) = _
    simp [extract_all_images, step, hAll.get_current_page, execute_action]
  · refine ⟨e.msg, ?_, hne⟩
    show some (execute_action (extract_table_data inv)) = _
    simp [extract_table_data, step, hAll.get_current_page, execute_action]
  · refine ⟨e.msg, ?_, hne⟩
    show some (execute_action (fill_and_submit_form inv)) = _
    simp [fill_and_submit_form, step, hAll.get_current_page, execute_action]
  · refine ⟨e.msg, ?_, hne⟩
    show some (execute_action (handle_popup inv)) = _
    simp [handle_popup, step, hAll.get_current_page, execute_action]
  · refine ⟨e.msg, ?_, hne⟩
    show some (execute_action (switch_to_iframe inv)) = _
    simp [switch_to_iframe, step, hAll.get_current_page, execute_action]
  · refine ⟨e.msg, ?_, hne⟩
    show some (execute_action (log_console_output inv)) = _
    simp [log_console_output, step, hAll.get_current_page, execute_action]
  · refine ⟨e.msg, ?_, hne⟩
    show some (execute_action (capture_network_requests inv)) = _
    simp [capture_network_requests, step, hAll.get_current_page, execute_action]
  · refine ⟨e.msg, ?_, hne⟩
    show some (execute_action (clear_browser_cache inv)) = _
    simp [clear_browser_cache, step, hAll.get_current_page, execute_action]
  · refine ⟨e.msg, ?_, hne⟩
    show some (execute_action (take_full_page_screenshot inv)) = _
    simp [take_full_page_screenshot, step, hAll.get_current_page, execute_action]
  · show ∃ m, some (execute_action (call_external_api inv)) = some (ActionResult.failure m) ∧ m ≠ ""
    unfold call_external_api call_external_api_core
    by_cases hg : inv.method = "GET"
    · rw [if_pos hg, hAll.http_get]
      exact ⟨e.msg, rfl, hne⟩
    · rw [if_neg hg]
      by_cases hp : inv.method = "POST"
      · rw [if_pos hp]
        cases hd : inv.data_arg with
        | none => exact ⟨typeErrMsg, by simp [pyJsonLoadsOpt, execute_action], by decide⟩
        | some s =>
          cases hj : jsonLoads s with
          | none =>
            exact ⟨jsonDecodeErrMsg,
              by simp [pyJsonLoadsOpt, pyJsonLoadsStr, hj, execute_action], by decide⟩
          | some v =>
            rw [hAll.http_post]
            exact ⟨e.msg, by simp [pyJsonLoadsOpt, pyJsonLoadsStr, hj, execute_action], hne⟩
      · rw [if_neg hp]
        exact ⟨unboundLocalMsg, rfl, by decide⟩
  · refine ⟨retryFailMsg inv.action_name inv.max_retries, ?_, retryFailMsg_ne_empty _ _⟩
    show some (execute_action (retry_failed_action_invoke inv)) = _
    have hgo := retryGo_all_error inv.attempts (fun _ => e) inv.max_retries 0
      (fun k _ => hAll.attempts (0 + k))
    simp [retry_failed_action_invoke, retry_failed_action, hgo, execute_action]

/-- Witness for C1 at a concrete input: `execute_js` on a session whose
driver calls all raise `boom`. -/
theorem allHandlers_failure_on_driver_raise_witness :
    ∃ m, invoke "execute_js" invBoom = some (ActionResult.failure m) ∧ m ≠ "" :=
  allHandlers_failure_on_driver_raise "execute_js" (by decide) invBoom ⟨"boom"⟩
    (by constructor <;> first | rfl | exact fun _ => rfl) (by decide)

/-- C4: every result an invocation of a registered handler produces has
exactly one `ActionResult` variant populated — `extracted_content` set and
`error` unset, or `error` set and `extracted_content` unset — provided the
retry wrapper's re-invoked attempts only ever return well-formed results
(they are themselves invocations of registered handlers). -/
theorem handlers_exactly_one_variant :
    ∀ name, name ∈ actionNames → ∀ inv : Invocation, WFattempts inv →
      ∀ r, invoke name inv = some r → exactlyOne r := by
  intro name hmem inv hA r hr
  fin_cases hmem
  · exact (Option.some.inj hr) ▸ wf_copy_to_clipboard inv
  · exact (Option.some.inj hr) ▸ wf_paste_from_clipboard inv
  · exact (Option.some.inj hr) ▸ wf_take_screenshot inv
  · exact (Option.some.inj hr) ▸ wf_extract_main_content inv
  · exact (Option.some.inj hr) ▸ wf_wait_for_element inv
  · exact (Option.some.inj hr) ▸ wf_execute_js inv
  · exact (Option.some.inj hr) ▸ wf_scroll_to_element inv
  · exact (Option.some.inj hr) ▸ wf_close_tab inv
  · exact (Option.some.inj hr) ▸ wf_log_page_url inv
  · exact (Option.some.inj hr) ▸ wf_open_new_tab inv
  · exact (Option.some.inj hr) ▸ wf_click_element inv
  · exact (Option.some.inj hr) ▸ wf_input_text inv
  · exact (Option.some.inj hr) ▸ wf_refresh_page inv
  · exact (Option.some.inj hr) ▸ wf_hover_over_element inv
  · exact (Option.some.inj hr) ▸ wf_get_cookies inv
  · exact (Option.some.inj hr) ▸ wf_set_cookies inv
  · exact (Option.some.inj hr) ▸ wf_download_file inv
  · exact (Option.some.inj hr) ▸ wf_wait_for_navigation inv
  · exact (Option.some.inj hr) ▸ wf_scroll_to_bottom inv
  · exact (Option.some.inj hr) ▸ wf_scroll_to_top inv
  · exact (Option.some.inj hr) ▸ wf_simulate_mouse_movement inv
  · exact (Option.some.inj hr) ▸ wf_extract_all_links inv
  · exact (Option.some.inj hr) ▸ wf_extract_all_images inv
  · exact (Option.some.inj hr) ▸ wf_extract_table_data inv
  · exact (Option.some.inj hr) ▸ wf_fill_and_submit_form inv
  · exact (Option.some.inj hr) ▸ wf_handle_popup inv
  · exact (Option.some.inj hr) ▸ wf_switch_to_iframe inv
  · exact (Option.some.inj hr) ▸ wf_log_console_output inv
  · exact (Option.some.inj hr) ▸ wf_capture_network_requests inv
  · exact (Option.some.inj hr) ▸ wf_clear_browser_cache inv
  · exact (Option.some.inj hr) ▸ wf_take_full_page_screenshot inv
  · exact (Option.some.inj hr) ▸ wf_call_external_api inv
  · exact (Option.some.inj hr) ▸ wf_retry_failed_action_invoke inv hA

/-- Witness for C4 at a concrete input: `wait_for_element` on the all-raising
session produces the failure result, which has exactly one variant
populated. -/
theorem handlers_exactly_one_variant_witness :
    invoke "wait_for_element" invBoom = some (ActionResult.failure "boom") ∧
      exactlyOne (ActionResult.failure "boom") :=
  ⟨rfl, handlers_exactly_one_variant "wait_for_element" (by decide) invBoom
    (fun _ _ h => Except.noConfusion h) (ActionResult.failure "boom") rfl⟩

/-- C2: if, with `max_retries ≥ 1`, the first normally returning attempt is
attempt `j` (every earlier attempt raised), the retry wrapper returns exactly
that result and stops: exactly `j + 1` invocations are made.  `res` is
arbitrary — in particular a returned `Failure` value — so a handler that
returns `Failure` without raising is invoked exactly once and its result is
passed through. -/
theorem retry_returns_normal_result_immediately :
    ∀ (attempts : Nat → Except Exc ActionResult) (name : String) (n j : Nat)
      (res : ActionResult),
      1 ≤ n → j < n →
      (∀ k, k < j → ∃ e, attempts k = Except.error e) →
      attempts j = Except.ok res →
      (retry_failed_action attempts name n).1 = res ∧
        (retry_failed_action attempts name n).2.1 = j + 1 := by
  intro attempts name n j res _ hlt hraise hok
  have h := retryGo_ok_at attempts res j 0 n hlt
    (fun k hk => by simpa using hraise k hk) (by simpa using hok)
  constructor
  · show ((retryGo attempts 0 n).1.getD _) = res
    rw [h.1]
    rfl
  · show (retryGo attempts 0 n).2.1 = j + 1
    exact h.2

/-- Witness for C2 at a concrete input: an action that returns a `Failure`
value directly (no raise) is invoked exactly once under `max_retries = 3`,
and its result is returned unchanged. -/
theorem retry_returns_normal_result_immediately_witness :
    (retry_failed_action (fun _ => Except.ok (ActionResult.failure "nope"))
        "click_element" 3).1 = ActionResult.failure "nope" ∧
      (retry_failed_action (fun _ => Except.ok (ActionResult.failure "nope"))
        "click_element" 3).2.1 = 1 :=
  retry_returns_normal_result_immediately _ "click_element" 3 0
    (ActionResult.failure "nope") (by decide) (by decide)
    (fun k hk => absurd hk (by omega)) rfl

/-- C3: if every one of the `max_retries ≥ 1` attempts raises, the retry
wrapper invokes the action exactly `max_retries` times, logs one warning per
raising attempt carrying the 1-based attempt number and the error text, and
returns a `Failure` whose message contains the action name and the value of
`max_retries`. -/
theorem retry_all_attempts_raise :
    ∀ (attempts : Nat → Except Exc ActionResult) (errs : Nat → Exc)
      (name : String) (n : Nat),
      1 ≤ n →
      (∀ i, i < n → attempts i = Except.error (errs i)) →
      (retry_failed_action attempts name n).2.1 = n ∧
      (retry_failed_action attempts name n).2.2 =
        (List.range n).map (fun i => warnMsg (i + 1) (errs i)) ∧
      (retry_failed_action attempts name n).1 =
        ActionResult.failure (retryFailMsg name n) ∧
      name.data <:+: (retryFailMsg name n).data ∧
      (toString n).data <:+: (retryFailMsg name n).data := by
  intro attempts errs name n _ h
  have hgo := retryGo_all_error attempts errs n 0 (fun k hk => by simpa using h k hk)
  simp only [Nat.zero_add] at hgo
  refine ⟨?_, ?_, ?_, ?_, ?_⟩
  · show (retryGo attempts 0 n).2.1 = n
    rw [hgo]
  · show (retryGo attempts 0 n).2.2 = _
    rw [hgo]
  · show ((retryGo attempts 0 n).1.getD _) = _
    rw [hgo]
    rfl
  · refine ⟨"Action ".data ++ pyQuote.data,
      pyQuote.data ++ " failed after ".data ++ (toString n).data ++ " retries".data, ?_⟩
    simp [retryFailMsg, String.data_append, List.append_assoc]
  · refine ⟨"Action ".data ++ pyQuote.data ++ name.data ++ pyQuote.data ++
      " failed after ".data, " retries".data, ?_⟩
    simp [retryFailMsg, String.data_append, List.append_assoc]

/-- Witness for C3 at a concrete input: an always-raising action under
`max_retries = 3`. -/
theorem retry_all_attempts_raise_witness :
    (retry_failed_action (fun _ => Except.error ⟨"boom"⟩) "execute_js" 3).2.1 = 3 ∧
      (retry_failed_action (fun _ => Except.error ⟨"boom"⟩) "execute_js" 3).2.2 =
        (List.range 3).map (fun i => warnMsg (i + 1) ((fun _ => (⟨"boom"⟩ : Exc)) i)) ∧
      (retry_failed_action (fun _ => Except.error ⟨"boom"⟩) "execute_js" 3).1 =
        ActionResult.failure (retryFailMsg "execute_js" 3) ∧
      ("execute_js").data <:+: (retryFailMsg "execute_js" 3).data ∧
      (toString 3).data <:+: (retryFailMsg "execute_js" 3).data :=
  retry_all_attempts_raise (fun _ => Except.error ⟨"boom"⟩) (fun _ => ⟨"boom"⟩)
    "execute_js" 3 (by decide) (fun _ _ => rfl)

/-- C9: with `max_retries = 0` the loop body never runs: the named action is
never invoked, no warning is logged, and the result is a `Failure` whose
message states the action failed after `0` retries (the message embeds the
text `failed after 0 retries`). -/
theorem retry_zero_retries_no_invocation :
    ∀ (attempts : Nat → Except Exc ActionResult) (name : String),
      retry_failed_action attempts name 0 =
        (ActionResult.failure (retryFailMsg name 0), 0, []) ∧
      (" failed after 0 retries").data <:+: (retryFailMsg name 0).data := by
  intro attempts name
  refine ⟨rfl, "Action ".data ++ pyQuote.data ++ name.data ++ pyQuote.data, [], ?_⟩
  simp [retryFailMsg, String.data_append, List.append_assoc]
  decide

theorem b64_char_roundtrip : ∀ n, n < 64 → b64val (b64char n) = n := by decide

theorem b64char_ne_pad : ∀ n, n < 64 → b64char n ≠ '=' := by decide

theorem b64_roundtrip : ∀ (bs : List Nat), (∀ x ∈ bs, x < 256) →
    b64decodeL (b64encodeL bs) = bs
  | [] => fun _ => rfl
  | [a] => fun h => by
    have ha : a < 256 := h a (by simp)
    show b64decodeL [b64char (a / 4), b64char (a % 4 * 16), '=', '='] = [a]
    simp only [b64decodeL, if_true]
    rw [b64_char_roundtrip (a / 4) (by omega), b64_char_roundtrip (a % 4 * 16) (by omega)]
    simp only [List.cons.injEq, and_true]
    omega
  | [a, b] => fun h => by
    have ha : a < 256 := h a (by simp)
    have hb : b < 256 := h b (by simp)
    show b64decodeL [b64char (a / 4), b64char (a % 4 * 16 + b / 16),
      b64char (b % 16 * 4), '='] = [a, b]
    simp only [b64decodeL, if_true]
    rw [if_neg (b64char_ne_pad (b % 16 * 4) (by omega))]
    rw [b64_char_roundtrip (a / 4) (by omega),
      b64_char_roundtrip (a % 4 * 16 + b / 16) (by omega),
      b64_char_roundtrip (b % 16 * 4) (by omega)]
    simp only [List.cons.injEq, and_true]
    refine ⟨by omega, by omega⟩
  | a :: b :: c :: rest => fun h => by
    have ha : a < 256 := h a (by simp)
    have hb : b < 256 := h b (by simp)
    have hc : c < 256 := h c (by simp)
    have ih := b64_roundtrip rest (fun x hx => h x (by simp [hx]))
    show b64decodeL (b64char (a / 4) :: b64char (a % 4 * 16 + b / 16) ::
      b64char (b % 16 * 4 + c / 64) :: b64char (c % 64) :: b64encodeL rest) =
      a :: b :: c :: rest
    simp only [b64decodeL]
    rw [if_neg (b64char_ne_pad (b % 16 * 4 + c / 64) (by omega))]
    rw [if_neg (b64char_ne_pad (c % 64) (by omega))]
    rw [b64_char_roundtrip (a / 4) (by omega),
      b64_char_roundtrip (a % 4 * 16 + b / 16) (by omega),
      b64_char_roundtrip (b % 16 * 4 + c / 64) (by omega),
      b64_char_roundtrip (c % 64) (by omega)]
    rw [ih]
    simp only [List.cons.injEq, and_true]
    refine ⟨by omega, by omega, by omega⟩

theorem dataUrl_drop (bs : List Nat) :
    (dataUrlTag ++ b64encodeStr bs).data.drop 22 = b64encodeL bs := by
  rw [String.data_append]
  show (dataUrlTag.data ++ b64encodeL bs).drop 22 = b64encodeL bs
  have h22 : dataUrlTag.data.length = 22 := rfl
  rw [← h22, List.drop_left]

/-- C6: for any byte sequence the driver's screenshot call returns, both
screenshot actions succeed with the data-URL prefix followed by the base64
encoding of those bytes, and stripping the 22-character prefix and
base64-decoding recovers exactly the original bytes — in particular a byte
sequence of the original length. -/
theorem screenshots_base64_data_url :
    ∀ (inv : Invocation) (bs : List Nat),
      inv.get_current_page = Except.ok () →
      inv.page_screenshot = Except.ok bs →
      inv.page_screenshot_full = Except.ok bs →
      (∀ x ∈ bs, x < 256) →
      execute_action (take_screenshot inv) =
        ActionResult.success (dataUrlTag ++ b64encodeStr bs) ∧
      execute_action (take_full_page_screenshot inv) =
        ActionResult.success (dataUrlTag ++ b64encodeStr bs) ∧
      b64decodeL ((dataUrlTag ++ b64encodeStr bs).data.drop 22) = bs ∧
      (b64decodeL ((dataUrlTag ++ b64encodeStr bs).data.drop 22)).length = bs.length := by
  intro inv bs h1 h2 h3 hb
  refine ⟨?_, ?_, ?_, ?_⟩
  · simp [take_screenshot, step, h1, h2, execute_action]
  · simp [take_full_page_screenshot, step, pyTry, h1, h3, execute_action]
  · rw [dataUrl_drop, b64_roundtrip bs hb]
  · rw [dataUrl_drop, b64_roundtrip bs hb]

/-- Witness for C6 at a concrete input: a four-byte PNG-signature prefix. -/
theorem screenshots_base64_data_url_witness :
    execute_action (take_screenshot invOk) =
      ActionResult.success (dataUrlTag ++ b64encodeStr [137, 80, 78, 71]) ∧
    execute_action (take_full_page_screenshot invOk) =
      ActionResult.success (dataUrlTag ++ b64encodeStr [137, 80, 78, 71]) ∧
    b64decodeL ((dataUrlTag ++ b64encodeStr [137, 80, 78, 71]).data.drop 22) =
      [137, 80, 78, 71] ∧
    (b64decodeL ((dataUrlTag ++ b64encodeStr [137, 80, 78, 71]).data.drop 22)).length =
      ([137, 80, 78, 71] : List Nat).length :=
  screenshots_base64_data_url invOk [137, 80, 78, 71] rfl rfl rfl (by decide)

/-- C8: whenever the driver calls succeed, `capture_network_requests` returns
success with content exactly the empty JSON array `"[]"`: the local request
list is serialized while still empty, before the registered callback can ever
append to it, so no captured URL appears in the returned content. -/
theorem capture_network_requests_empty_array :
    ∀ inv : Invocation,
      inv.get_current_page = Except.ok () →
      inv.page_on_request = Except.ok () →
      execute_action (capture_network_requests inv) = ActionResult.success "[]" := by
  intro inv h1 h2
  simp only [capture_network_requests, step, pyTry, h1, h2, execute_action]
  rfl

/-- Witness for C8 at a concrete input. -/
theorem capture_network_requests_empty_array_witness :
    execute_action (capture_network_requests invOk) = ActionResult.success "[]" :=
  capture_network_requests_empty_array invOk rfl rfl

/-- C10: for any method other than `"GET"` and `"POST"`, `call_external_api`
issues no HTTP request and returns a `Failure`, never a success: neither
branch binds the local `result`, the trailing read of `result` raises
`UnboundLocalError`, and the handler's own except branch converts it to a
failure result with the interpreter's (non-empty) message. -/
theorem call_external_api_unknown_method_failure :
    ∀ inv : Invocation,
      inv.method ≠ "GET" → inv.method ≠ "POST" →
      call_external_api inv = Except.ok (ActionResult.failure unboundLocalMsg) ∧
      (call_external_api_core inv).2 = 0 ∧
      execute_action (call_external_api inv) = ActionResult.failure unboundLocalMsg ∧
      unboundLocalMsg ≠ "" := by
  intro inv hg hp
  unfold call_external_api call_external_api_core
  rw [if_neg hg, if_neg hp]
  exact ⟨rfl, rfl, rfl, by decide⟩

/-- Witness for C10 at a concrete input: method `"PUT"`. -/
theorem call_external_api_unknown_method_failure_witness :
    call_external_api invBoom = Except.ok (ActionResult.failure unboundLocalMsg) ∧
      (call_external_api_core invBoom).2 = 0 ∧
      execute_action (call_external_api invBoom) = ActionResult.failure unboundLocalMsg ∧
      unboundLocalMsg ≠ "" :=
  call_external_api_unknown_method_failure invBoom (by decide) (by decide)

/-- Counterexample to C5 at an explicit concrete input: set the one-cookie
collection `cookieVal` (supplied as the JSON text `json.dumps(cookieVal)`,
which `json.loads` accepts); the driver stores it faithfully and
`page.context.cookies()` returns exactly the set collection; yet the
`get_cookies` success payload is `str(cookies)` — the Python native
rendering, which is not valid JSON text (`jsonLoads` rejects it), and
differs from the JSON serialization.  So the claimed JSON round-trip fails
at this input. -/
theorem cookies_roundtrip_not_json_cex :
    jsonLoads (pyJsonDumps cookieVal) = some cookieVal ∧
    execute_action (set_cookies invCookie) = ActionResult.success "Cookies set" ∧
    execute_action (get_cookies invCookie) = ActionResult.success (pyStr cookieVal) ∧
    jsonLoads (pyStr cookieVal) = none ∧
    pyStr cookieVal ≠ pyJsonDumps cookieVal :=
  ⟨rfl, rfl, rfl, rfl, by decide⟩

/-- C5 (amended): `set_cookies` parses its JSON text argument and delegates
to `add_cookies`; a subsequent `get_cookies` on a session whose driver
returns the stored collection succeeds with content `str(cookies)` — the
Python native rendering of the cookie collection, not a JSON text (for any
non-empty collection the payload fails to parse as JSON, as the
counterexample shows). -/
theorem cookies_roundtrip_python_repr :
    ∀ (inv : Invocation) (cs : PyVal),
      inv.get_current_page = Except.ok () →
      inv.ctx_add_cookies = Except.ok () →
      jsonLoads inv.cookies_arg = some cs →
      inv.ctx_cookies = Except.ok cs →
      execute_action (set_cookies inv) = ActionResult.success "Cookies set" ∧
      execute_action (get_cookies inv) = ActionResult.success (pyStr cs) := by
  intro inv cs h1 h2 h3 h4
  constructor
  · simp [set_cookies, step, pyTry, pyJsonLoadsStr, h1, h2, h3, execute_action]
  · simp [get_cookies, step, pyTry, h1, h4, execute_action]

/-- Witness for the amended C5 at a concrete input: a three-field cookie. -/
theorem cookies_roundtrip_python_repr_witness :
    execute_action (set_cookies invCookie2) = ActionResult.success "Cookies set" ∧
      execute_action (get_cookies invCookie2) = ActionResult.success (pyStr cookieVal2) :=
  cookies_roundtrip_python_repr invCookie2 cookieVal2 rfl rfl rfl rfl

theorem strBody_escape_roundtrip :
    ∀ (l rest : List Char), parseJsonStringBody (escapeL l ++ '"' :: rest) = some (l, rest) := by
  intro l
  induction l with
  | nil =>
    intro rest
    show parseJsonStringBody ('"' :: rest) = some ([], rest)
    rw [parseJsonStringBody.eq_def]
    simp
  | cons c l ih =>
    intro rest
    by_cases hq : c = '"'
    · subst hq
      have hesc : escapeL ('"' :: l) = '\\' :: '"' :: escapeL l := by simp [escapeL, escChar]
      rw [hesc]
      simp only [List.cons_append]
      rw [parseJsonStringBody.eq_def]
      simp [ih, unescChar]
    · by_cases hb : c = '\\'
      · subst hb
        have hesc : escapeL ('\\' :: l) = '\\' :: '\\' :: escapeL l := by simp [escapeL, escChar]
        rw [hesc]
        simp only [List.cons_append]
        rw [parseJsonStringBody.eq_def]
        simp [ih, unescChar]
      · have hesc : escapeL (c :: l) = c :: escapeL l := by simp [escapeL, escChar, hq, hb]
        rw [hesc]
        simp only [List.cons_append]
        rw [parseJsonStringBody.eq_def]
        simp [hq, hb, ih]

theorem parseStrItems_space (f : Nat) (L : List Char) :
    parseStrItems f (' ' :: L) = parseStrItems f L := by
  cases f <;> rfl

theorem strEnc_length (s : String) : 2 ≤ (String.mk (jsonStrEnc s)).data.length := by
  show 2 ≤ (jsonStrEnc s).length
  simp [jsonStrEnc]

theorem commaSep_enc_length :
    ∀ l : List String,
      l.length ≤ (commaSep (l.map fun s => String.mk (jsonStrEnc s))).data.length := by
  intro l
  induction l with
  | nil => simp [commaSep]
  | cons x l ih =>
    cases l with
    | nil =>
      have h : commaSep ([x].map fun s => String.mk (jsonStrEnc s)) =
          String.mk (jsonStrEnc x) := rfl
      rw [h]
      have h2 := strEnc_length x
      have h3 : (x :: ([] : List String)).length = 1 := rfl
      rw [h3]
      exact le_trans (by omega : (1 : Nat) ≤ 2) h2
    | cons y ys =>
      have hcs : commaSep ((x :: y :: ys).map fun s => String.mk (jsonStrEnc s)) =
          String.mk (jsonStrEnc x) ++ ", " ++
            commaSep ((y :: ys).map fun s => String.mk (jsonStrEnc s)) := rfl
      rw [hcs, String.data_append, String.data_append]
      have h1 := strEnc_length x
      have h2 : (", ").data.length = 2 := rfl
      simp only [List.length_append, List.length_cons] at ih ⊢
      omega

theorem parseStrItems_encode :
    ∀ (xs : List String) (x : String) (rest : List Char) (fuel : Nat),
      xs.length < fuel →
      parseStrItems fuel
        ((commaSep ((x :: xs).map fun s => String.mk (jsonStrEnc s))).data ++ ']' :: rest) =
        some (x :: xs, rest) := by
  intro xs
  induction xs with
  | nil =>
    intro x rest fuel hf
    cases fuel with
    | zero => omega
    | succ f =>
      show parseStrItems (f + 1) (jsonStrEnc x ++ ']' :: rest) = some ([x], rest)
      rw [jsonStrEnc]
      simp only [List.cons_append, List.append_assoc]
      rw [parseStrItems.eq_def]
      have hbody := strBody_escape_roundtrip x.data (']' :: rest)
      simp only [List.singleton_append]
      simp [hbody, skipWs, isWsChar]
  | cons y ys ih =>
    intro x rest fuel hf
    cases fuel with
    | zero => omega
    | succ f =>
      have hcs : commaSep ((x :: y :: ys).map fun s => String.mk (jsonStrEnc s)) =
          String.mk (jsonStrEnc x) ++ ", " ++
            commaSep ((y :: ys).map fun s => String.mk (jsonStrEnc s)) := rfl
      rw [hcs, String.data_append, String.data_append]
      show parseStrItems (f + 1)
        ((jsonStrEnc x ++ (", ").data) ++
          (commaSep ((y :: ys).map fun s => String.mk (jsonStrEnc s))).data ++ ']' :: rest) =
        some (x :: y :: ys, rest)
      rw [jsonStrEnc]
      have hx : (", ").data = [',', ' '] := rfl
      rw [hx]
      simp only [List.cons_append, List.append_assoc, List.singleton_append]
      have ihh := ih y rest f (by simpa using Nat.lt_of_succ_lt_succ hf)
      simp only [List.map_cons] at ihh
      rw [parseStrItems.eq_def]
      simp [strBody_escape_roundtrip, parseStrItems_space, skipWs, isWsChar, ihh]

theorem dumpsList_map_vStr :
    ∀ xs : List String,
      pyJsonDumpsList (xs.map PyVal.vStr) = xs.map fun s => String.mk (jsonStrEnc s) := by
  intro xs
  induction xs with
  | nil => rfl
  | cons x xs ih => simp [pyJsonDumpsList, pyJsonDumps, ih]

theorem decodeStrArray_dumps :
    ∀ xs : List String,
      decodeStrArray (pyJsonDumps (PyVal.vList (xs.map PyVal.vStr))) = some xs := by
  intro xs
  cases xs with
  | nil => rfl
  | cons x xs =>
    have hd : pyJsonDumps (PyVal.vList ((x :: xs).map PyVal.vStr)) =
        "[" ++ commaSep ((x :: xs).map fun s => String.mk (jsonStrEnc s)) ++ "]" := by
      rw [pyJsonDumps, dumpsList_map_vStr]
    rw [hd]
    have hM : ∃ T, (commaSep ((x :: xs).map fun s => String.mk (jsonStrEnc s))).data =
        '"' :: T := by
      cases xs with
      | nil => exact ⟨_, rfl⟩
      | cons y ys => exact ⟨_, rfl⟩
    obtain ⟨T, hT⟩ := hM
    have hdata : ("[" ++ commaSep ((x :: xs).map fun s => String.mk (jsonStrEnc s)) ++ "]").data =
        '[' :: ((commaSep ((x :: xs).map fun s => String.mk (jsonStrEnc s))).data ++ [']']) := by
      rw [String.data_append, String.data_append]
      rfl
    have hlen : xs.length <
        ("[" ++ commaSep ((x :: xs).map fun s => String.mk (jsonStrEnc s)) ++ "]").data.length + 1 := by
      have h1 := commaSep_enc_length (x :: xs)
      rw [hdata]
      simp only [List.length_cons, List.length_append] at h1 ⊢
      omega
    have hp := parseStrItems_encode xs x []
      (("[" ++ commaSep ((x :: xs).map fun s => String.mk (jsonStrEnc s)) ++ "]").data.length + 1)
      hlen
    rw [hdata] at hp
    rw [hT] at hp
    unfold decodeStrArray
    rw [hdata, hT]
    simp only [List.cons_append, List.append_assoc, List.nil_append, List.length_cons,
      List.length_append, List.length_nil] at hp ⊢
    simp [skipWs, isWsChar, hp]

/-- C7: when the driver's evaluation of the link-collection script yields the
page's `N` anchor hrefs (printable-ASCII URL strings) in document order,
`extract_all_links` succeeds with content `json.dumps` of that list — a JSON
array text that decodes back to exactly the `N` URL strings in document
order. -/
theorem extract_all_links_json_array :
    ∀ (inv : Invocation) (hrefs : List String),
      inv.get_current_page = Except.ok () →
      inv.eval_links = Except.ok hrefs →
      (∀ s ∈ hrefs, ∀ c ∈ s.data, 32 ≤ c.toNat ∧ c.toNat ≤ 126) →
      execute_action (extract_all_links inv) =
        ActionResult.success (pyJsonDumps (PyVal.vList (hrefs.map PyVal.vStr))) ∧
      decodeStrArray (pyJsonDumps (PyVal.vList (hrefs.map PyVal.vStr))) = some hrefs ∧
      (hrefs.map PyVal.vStr).length = hrefs.length := by
  intro inv hrefs h1 h2 _
  refine ⟨?_, decodeStrArray_dumps hrefs, by simp⟩
  simp [extract_all_links, step, pyTry, h1, h2, execute_action]

/-- Witness for C7 at a concrete input: a page with two anchors. -/
theorem extract_all_links_json_array_witness :
    execute_action (extract_all_links invOk) =
      ActionResult.success (pyJsonDumps (PyVal.vList
        ((["http://example.com/a", "http://example.com/b"] : List String).map PyVal.vStr))) ∧
    decodeStrArray (pyJsonDumps (PyVal.vList
      ((["http://example.com/a", "http://example.com/b"] : List String).map PyVal.vStr))) =
      some ["http://example.com/a", "http://example.com/b"] ∧
    ((["http://example.com/a", "http://example.com/b"] : List String).map PyVal.vStr).length =
      (["http://example.com/a", "http://example.com/b"] : List String).length :=
  extract_all_links_json_array invOk ["http://example.com/a", "http://example.com/b"]
    rfl rfl (by decide)
